import Mathlib

/-
Verification development for the EWS Migration Analyzer repository's Python
sources:
  - samples/mcp-client-example.py  (EwsAnalyzerClient: stdio JSON-RPC client)
  - src/Ews.App.Usage/Modules/ews_utilities.py  (get_config)

The Python code is shallowly embedded below: JSON values, the serializer
(json.dumps with its default separators and ensure_ascii behaviour), the
line decoder (json.loads, strict mode), the client state machine
(_send / start / stop and the named tool wrappers), the posixpath
absolute-path resolution used by the wrappers, and the configuration
loader.  All definitions are executable, so the theorems can be
instantiated on concrete inputs by evaluation.
-/

set_option maxHeartbeats 1600000

/-- JSON values, as produced by Python's json.loads and consumed by
json.dumps.  Integer literals parse to `num`; number literals with a
fraction or exponent part parse to `jfloat m e`, meaning the exact decimal
value m * 10^e (the model keeps the exact decimal value rather than the
IEEE-754 rounding, which no part of the client inspects).  `jnan`, `jinf`
and `jninf` mirror the NaN / Infinity / -Infinity extensions that Python's
decoder accepts by default.  Object members keep their textual order;
duplicate keys are resolved last-wins at lookup time, matching dict
construction in Python's decoder. -/
inductive Json where
  | null : Json
  | jbool : Bool → Json
  | num : Int → Json
  | jfloat : Int → Int → Json
  | jnan : Json
  | jinf : Json
  | jninf : Json
  | str : String → Json
  | arr : List Json → Json
  | obj : List (String × Json) → Json

/-- The hexadecimal digit characters used both for decimal digits and for
the \uXXXX escapes emitted by json.dumps (Python formats them with %04x,
hence lowercase). -/
def hexDigit (n : Nat) : Char :=
  List.getD "0123456789abcdef".data n '0'

/-- Decimal digit run of a natural number (fuel-based; fuel `n + 1` always
suffices since the digit count of `n` is at most `n + 1`). -/
def natCharsAux : Nat → Nat → List Char
  | 0, _ => []
  | fuel + 1, n => if n < 10 then [hexDigit n] else natCharsAux fuel (n / 10) ++ [hexDigit (n % 10)]

/-- Decimal representation of a natural number, as Python's int repr. -/
def natChars (n : Nat) : List Char := natCharsAux (n + 1) n

/-- Decimal representation of an integer, as Python's int repr. -/
def intChars : Int → List Char
  | Int.ofNat n => natChars n
  | Int.negSucc n => '-' :: natChars (n + 1)

/-- A \uXXXX escape for a code unit below 0x10000. -/
def uEscape (n : Nat) : List Char :=
  ['\\', 'u', hexDigit (n / 4096 % 16), hexDigit (n / 256 % 16), hexDigit (n / 16 % 16),
    hexDigit (n % 16)]

/-- Escaping of one character by json.dumps with ensure_ascii=True (the
default): the two-character escapes for quote, backslash and the five
control characters with short forms; printable ASCII passed through;
everything else as \uXXXX, with a surrogate pair above 0xFFFF. -/
def escChar (c : Char) : List Char :=
  if c = '"' then ['\\', '"']
  else if c = '\\' then ['\\', '\\']
  else if c = '\n' then ['\\', 'n']
  else if c = '\r' then ['\\', 'r']
  else if c = '\t' then ['\\', 't']
  else if c.toNat = 8 then ['\\', 'b']
  else if c.toNat = 12 then ['\\', 'f']
  else if 32 ≤ c.toNat && c.toNat ≤ 126 then [c]
  else if c.toNat < 65536 then uEscape c.toNat
  else uEscape (55296 + (c.toNat - 65536) / 1024) ++ uEscape (56320 + (c.toNat - 65536) % 1024)

/-- A JSON string literal: opening quote, escaped characters, closing
quote. -/
def escStr (s : String) : List Char :=
  '"' :: s.data.foldr (fun c acc => escChar c ++ acc) ['"']

mutual

/-- json.dumps with the default separators (", " between items, ": " after
keys), rendering one value. -/
def dumpsVal : Json → List Char
  | Json.null => ['n', 'u', 'l', 'l']
  | Json.jbool true => ['t', 'r', 'u', 'e']
  | Json.jbool false => ['f', 'a', 'l', 's', 'e']
  | Json.num i => intChars i
  | Json.jfloat m e => intChars m ++ 'e' :: intChars e
  | Json.jnan => ['N', 'a', 'N']
  | Json.jinf => ['I', 'n', 'f', 'i', 'n', 'i', 't', 'y']
  | Json.jninf => '-' :: ['I', 'n', 'f', 'i', 'n', 'i', 't', 'y']
  | Json.str s => escStr s
  | Json.arr [] => ['[', ']']
  | Json.arr (x :: xs) => '[' :: (dumpsVal x ++ dumpsArrRest xs) ++ [']']
  | Json.obj [] => ['\x7b', '\x7d']
  | Json.obj ((k, v) :: kvs) =>
    '\x7b' :: (escStr k ++ ':' :: ' ' :: dumpsVal v ++ dumpsObjRest kvs) ++ ['\x7d']

/-- Rendering of the remaining elements of a non-empty array: ", " before
each. -/
def dumpsArrRest : List Json → List Char
  | [] => []
  | x :: xs => ',' :: ' ' :: (dumpsVal x ++ dumpsArrRest xs)

/-- Rendering of the remaining members of a non-empty object: ", " before
each, ": " after each key. -/
def dumpsObjRest : List (String × Json) → List Char
  | [] => []
  | (k, v) :: kvs => ',' :: ' ' :: (escStr k ++ ':' :: ' ' :: dumpsVal v ++ dumpsObjRest kvs)

end

/-- json.dumps of a value, as a string. -/
def Json.dumps (j : Json) : String := String.mk (dumpsVal j)

theorem hexDigit_ne_newline (n : Nat) : hexDigit n ≠ '\n' := by
  unfold hexDigit
  rcases Nat.lt_or_ge n 16 with h | h
  · interval_cases n <;> decide
  · rw [List.getD_eq_default]
    · decide
    · have hlen : ("0123456789abcdef".data).length = 16 := rfl
      omega

theorem natCharsAux_no_newline (fuel : Nat) :
    ∀ n, '\n' ∉ natCharsAux fuel n := by
  induction fuel with
  | zero => intro n; simp [natCharsAux]
  | succ fuel ih =>
    intro n
    unfold natCharsAux
    split
    · simp only [List.mem_singleton]
      exact fun h => hexDigit_ne_newline n h.symm
    · intro h
      rcases List.mem_append.mp h with h | h
      · exact ih _ h
      · simp only [List.mem_singleton] at h
        exact hexDigit_ne_newline _ h.symm

theorem intChars_no_newline (i : Int) : '\n' ∉ intChars i := by
  cases i with
  | ofNat n => exact natCharsAux_no_newline _ n
  | negSucc n =>
    intro h
    rcases List.mem_cons.mp h with h | h
    · exact absurd h (by decide)
    · exact natCharsAux_no_newline _ _ h

theorem uEscape_no_newline (n : Nat) : '\n' ∉ uEscape n := by
  intro h
  unfold uEscape at h
  simp only [List.mem_cons, List.not_mem_nil, or_false] at h
  rcases h with h | h | h | h | h | h
  · exact absurd h (by decide)
  · exact absurd h (by decide)
  · exact hexDigit_ne_newline _ h.symm
  · exact hexDigit_ne_newline _ h.symm
  · exact hexDigit_ne_newline _ h.symm
  · exact hexDigit_ne_newline _ h.symm

theorem escChar_no_newline (c : Char) : '\n' ∉ escChar c := by
  unfold escChar
  split_ifs with h1 h2 h3 h4 h5 h6 h7 h8 h9
  · decide
  · decide
  · decide
  · decide
  · decide
  · decide
  · decide
  · simp only [List.mem_singleton]
    intro h
    subst h
    exact absurd h8 (by decide)
  · exact uEscape_no_newline _
  · intro h
    rcases List.mem_append.mp h with h | h
    · exact uEscape_no_newline _ h
    · exact uEscape_no_newline _ h

theorem escFold_no_newline (l : List Char) :
    '\n' ∉ l.foldr (fun c acc => escChar c ++ acc) ['"'] := by
  induction l with
  | nil => decide
  | cons c cs ih =>
    simp only [List.foldr_cons]
    intro h
    rcases List.mem_append.mp h with h | h
    · exact escChar_no_newline c h
    · exact ih h

theorem escStr_no_newline (s : String) : '\n' ∉ escStr s := by
  intro h
  rcases List.mem_cons.mp h with h | h
  · exact absurd h (by decide)
  · exact escFold_no_newline s.data h

mutual

theorem dumpsVal_no_newline : ∀ j : Json, '\n' ∉ dumpsVal j
  | Json.null => by decide
  | Json.jbool true => by decide
  | Json.jbool false => by decide
  | Json.num i => intChars_no_newline i
  | Json.jfloat m e => by
    intro h
    rw [dumpsVal] at h
    rcases List.mem_append.mp h with h | h
    · exact intChars_no_newline m h
    · rcases List.mem_cons.mp h with h | h
      · exact absurd h (by decide)
      · exact intChars_no_newline e h
  | Json.jnan => by decide
  | Json.jinf => by decide
  | Json.jninf => by decide
  | Json.str s => escStr_no_newline s
  | Json.arr [] => by decide
  | Json.arr (x :: xs) => by
    intro h
    rw [dumpsVal] at h
    rcases List.mem_cons.mp h with h | h
    · exact absurd h (by decide)
    · rcases List.mem_append.mp h with h | h
      · rcases List.mem_append.mp h with h | h
        · exact dumpsVal_no_newline x h
        · exact dumpsArrRest_no_newline xs h
      · exact absurd (List.mem_singleton.mp h) (by decide)
  | Json.obj [] => by decide
  | Json.obj ((k, v) :: kvs) => by
    intro h
    rw [dumpsVal] at h
    rcases List.mem_cons.mp h with h | h
    · exact absurd h (by decide)
    · rcases List.mem_append.mp h with h | h
      · rcases List.mem_append.mp h with h | h
        · rcases List.mem_append.mp h with h | h
          · exact escStr_no_newline k h
          · rcases List.mem_cons.mp h with h | h
            · exact absurd h (by decide)
            · rcases List.mem_cons.mp h with h | h
              · exact absurd h (by decide)
              · exact dumpsVal_no_newline v h
        · exact dumpsObjRest_no_newline kvs h
      · exact absurd (List.mem_singleton.mp h) (by decide)

theorem dumpsArrRest_no_newline : ∀ xs : List Json, '\n' ∉ dumpsArrRest xs
  | [] => by decide
  | x :: xs => by
    intro h
    rw [dumpsArrRest] at h
    rcases List.mem_cons.mp h with h | h
    · exact absurd h (by decide)
    · rcases List.mem_cons.mp h with h | h
      · exact absurd h (by decide)
      · rcases List.mem_append.mp h with h | h
        · exact dumpsVal_no_newline x h
        · exact dumpsArrRest_no_newline xs h

theorem dumpsObjRest_no_newline : ∀ kvs : List (String × Json), '\n' ∉ dumpsObjRest kvs
  | [] => by decide
  | (k, v) :: kvs => by
    intro h
    rw [dumpsObjRest] at h
    rcases List.mem_cons.mp h with h | h
    · exact absurd h (by decide)
    · rcases List.mem_cons.mp h with h | h
      · exact absurd h (by decide)
      · rcases List.mem_append.mp h with h | h
        · rcases List.mem_append.mp h with h | h
          · exact escStr_no_newline k h
          · rcases List.mem_cons.mp h with h | h
            · exact absurd h (by decide)
            · rcases List.mem_cons.mp h with h | h
              · exact absurd h (by decide)
              · exact dumpsVal_no_newline v h
        · exact dumpsObjRest_no_newline kvs h

end

/-- The whitespace characters skipped by Python's json decoder (the
WHITESPACE regex [ \t\n\r]*). -/
def isJsonWs (c : Char) : Bool := c = ' ' || c = '\t' || c = '\n' || c = '\x0d'

/-- Skip decoder whitespace. -/
def skipWs (l : List Char) : List Char := l.dropWhile isJsonWs

/-- Value of one hexadecimal digit, as accepted inside \uXXXX escapes
(both cases). -/
def hexVal (c : Char) : Option Nat :=
  if 48 ≤ c.toNat && c.toNat ≤ 57 then some (c.toNat - 48)
  else if 97 ≤ c.toNat && c.toNat ≤ 102 then some (c.toNat - 87)
  else if 65 ≤ c.toNat && c.toNat ≤ 70 then some (c.toNat - 55)
  else none

/-- Four hexadecimal digits of a \uXXXX escape. -/
def parseHex4 : List Char → Option (Nat × List Char)
  | a :: b :: c :: d :: r =>
    match hexVal a, hexVal b, hexVal c, hexVal d with
    | some x, some y, some z, some w => some (x * 4096 + y * 256 + z * 16 + w, r)
    | _, _, _, _ => none
  | _ => none

/-- Stand-in for a lone surrogate produced by a \uXXXX escape: Python keeps
the lone surrogate code unit in the str, which a Lean Char (a Unicode
scalar value) cannot hold, so the model substitutes U+FFFD.  No string the
client or the analyzed protocol produces contains lone surrogates. -/
def replChar : Char := Char.ofNat 65533

/-- Body of a JSON string literal after the opening quote, per Python's
py_scanstring in strict mode: raw control characters below 0x20 are
rejected, the eight short escapes and \uXXXX are accepted, and a high
surrogate escape followed by a low surrogate escape is combined into one
character.  Fuel `input length + 1` always suffices since every step
consumes at least one character. -/
def parseStrBody : Nat → List Char → List Char → Except Unit (String × List Char)
  | 0, _, _ => Except.error ()
  | _ + 1, [], _ => Except.error ()
  | fuel + 1, c :: rest, acc =>
    if c = '"' then Except.ok (String.mk acc.reverse, rest)
    else if c = '\\' then
      match rest with
      | [] => Except.error ()
      | e :: r2 =>
        if e = '"' then parseStrBody fuel r2 ('"' :: acc)
        else if e = '\\' then parseStrBody fuel r2 ('\\' :: acc)
        else if e = '/' then parseStrBody fuel r2 ('/' :: acc)
        else if e = 'b' then parseStrBody fuel r2 ('\x08' :: acc)
        else if e = 'f' then parseStrBody fuel r2 ('\x0c' :: acc)
        else if e = 'n' then parseStrBody fuel r2 ('\n' :: acc)
        else if e = 'r' then parseStrBody fuel r2 ('\x0d' :: acc)
        else if e = 't' then parseStrBody fuel r2 ('\t' :: acc)
        else if e = 'u' then
          match parseHex4 r2 with
          | none => Except.error ()
          | some (n, r3) =>
            if 55296 ≤ n && n ≤ 56319 then
              match r3 with
              | '\\' :: 'u' :: r4 =>
                match parseHex4 r4 with
                | some (m, r5) =>
                  if 56320 ≤ m && m ≤ 57343 then
                    parseStrBody fuel r5
                      (Char.ofNat (65536 + (n - 55296) * 1024 + (m - 56320)) :: acc)
                  else parseStrBody fuel r3 (replChar :: acc)
                | none => parseStrBody fuel r3 (replChar :: acc)
              | _ => parseStrBody fuel r3 (replChar :: acc)
            else if 56320 ≤ n && n ≤ 57343 then parseStrBody fuel r3 (replChar :: acc)
            else parseStrBody fuel r3 (Char.ofNat n :: acc)
        else Except.error ()
    else if c.toNat < 32 then Except.error ()
    else parseStrBody fuel rest (c :: acc)

/-- Expect the given literal characters at the head of the input. -/
def dropWord : List Char → List Char → Option (List Char)
  | [], l => some l
  | w :: ws, c :: l => if c = w then dropWord ws l else none
  | _ :: _, [] => none

/-- Numeric value of a run of decimal digit characters. -/
def digitsVal (ds : List Char) : Nat := ds.foldl (fun a c => a * 10 + (c.toNat - 48)) 0

/-- Fraction and exponent parts of a JSON number after its integer digits,
with the maximal-munch regex semantics: a fraction is consumed only when a
dot is followed by at least one digit, an exponent only when the e and
optional sign are followed by at least one digit.  An integer literal
yields `num`; otherwise `jfloat` holds the mantissa digits as an integer
and the power of ten of the exact decimal value. -/
def parseNumberTail (neg : Bool) (intDigits : List Char) (rest : List Char) :
    Json × List Char :=
  let fracSplit : List Char × List Char :=
    match rest with
    | '.' :: r2 =>
      let fs := r2.takeWhile Char.isDigit
      if fs.isEmpty then ([], rest) else (fs, r2.dropWhile Char.isDigit)
    | _ => ([], rest)
  let fracDigits := fracSplit.1
  let rest2 := fracSplit.2
  let expSplit : Option (Bool × List Char) × List Char :=
    match rest2 with
    | e :: r3 =>
      if e = 'e' || e = 'E' then
        let signSplit : Bool × List Char :=
          match r3 with
          | '+' :: r4 => (false, r4)
          | '-' :: r4 => (true, r4)
          | _ => (false, r3)
        let es := signSplit.2.takeWhile Char.isDigit
        if es.isEmpty then (none, rest2)
        else (some (signSplit.1, es), signSplit.2.dropWhile Char.isDigit)
      else (none, rest2)
    | _ => (none, rest2)
  match fracDigits, expSplit.1 with
  | [], none =>
    (Json.num (if neg then -(digitsVal intDigits : Int) else (digitsVal intDigits : Int)),
      expSplit.2)
  | _, _ =>
    let mant : Int := digitsVal (intDigits ++ fracDigits)
    let eBase : Int :=
      match expSplit.1 with
      | some (esNeg, es) => if esNeg then -(digitsVal es : Int) else (digitsVal es : Int)
      | none => 0
    (Json.jfloat (if neg then -mant else mant) (eBase - fracDigits.length), expSplit.2)

/-- A JSON number at the head of the input, with the maximal-munch
semantics of Python's NUMBER_RE regex
(-?(0|[1-9]digits))(.digits)?([eE][+-]?digits)?: an integer literal
yields `num`, a literal with a fraction or exponent yields `jfloat`
(mantissa and power of ten of the exact decimal value). -/
def parseNumber (l : List Char) : Except Unit (Json × List Char) :=
  let signAndRest : Bool × List Char :=
    match l with
    | '-' :: r => (true, r)
    | _ => (false, l)
  let neg := signAndRest.1
  let l1 := signAndRest.2
  match l1 with
  | '0' :: r =>
    Except.ok (parseNumberTail neg ['0'] r)
  | c :: _ =>
    if c.isDigit then
      Except.ok (parseNumberTail neg (l1.takeWhile Char.isDigit) (l1.dropWhile Char.isDigit))
    else Except.error ()
  | [] => Except.error ()

/-- Worklist state of the recursive-descent value scanner: a whole value,
or the continuation of an array / object whose opening bracket (and the
members in `acc`) have been consumed. -/
inductive PTask where
  | value : PTask
  | arrItems : List Json → PTask
  | objItems : List (String × Json) → PTask

/-- Python's json value scanner (py_make_scanner, strict): strings,
objects, arrays, the three constant words, NaN / Infinity / -Infinity and
numbers.  Arrays and objects follow the strict grammar: after '[' either
']' or a value; after a value either ',' (then another value) or ']';
after '\x7b' either '\x7d' or a quoted key; after a member either ','
(then another key) or '\x7d'.  Structural on the fuel argument so the
kernel can evaluate it; `json_loads` supplies fuel larger than any
possible recursion depth (which mirrors Python's own recursion limit). -/
def parseF : Nat → PTask → List Char → Except Unit (Json × List Char)
  | 0, _, _ => Except.error ()
  | fuel + 1, PTask.value, l =>
    match skipWs l with
    | [] => Except.error ()
    | c :: rest =>
      if c = '"' then
        match parseStrBody (rest.length + 1) rest [] with
        | Except.ok (s, r) => Except.ok (Json.str s, r)
        | Except.error e => Except.error e
      else if c = '\x7b' then parseF fuel (PTask.objItems []) rest
      else if c = '[' then parseF fuel (PTask.arrItems []) rest
      else if c = 't' then
        match dropWord ['r', 'u', 'e'] rest with
        | some r => Except.ok (Json.jbool true, r)
        | none => Except.error ()
      else if c = 'f' then
        match dropWord ['a', 'l', 's', 'e'] rest with
        | some r => Except.ok (Json.jbool false, r)
        | none => Except.error ()
      else if c = 'n' then
        match dropWord ['u', 'l', 'l'] rest with
        | some r => Except.ok (Json.null, r)
        | none => Except.error ()
      else if c = 'N' then
        match dropWord ['a', 'N'] rest with
        | some r => Except.ok (Json.jnan, r)
        | none => Except.error ()
      else if c = 'I' then
        match dropWord ['n', 'f', 'i', 'n', 'i', 't', 'y'] rest with
        | some r => Except.ok (Json.jinf, r)
        | none => Except.error ()
      else if c = '-' then
        match dropWord ['I', 'n', 'f', 'i', 'n', 'i', 't', 'y'] rest with
        | some r => Except.ok (Json.jninf, r)
        | none => parseNumber (c :: rest)
      else if c.isDigit then parseNumber (c :: rest)
      else Except.error ()
  | fuel + 1, PTask.arrItems acc, l =>
    match skipWs l with
    | ']' :: rest =>
      if acc.isEmpty then Except.ok (Json.arr [], rest) else Except.error ()
    | l1 =>
      match parseF fuel PTask.value l1 with
      | Except.error e => Except.error e
      | Except.ok (v, r) =>
        match skipWs r with
        | ']' :: r2 => Except.ok (Json.arr (acc ++ [v]), r2)
        | ',' :: r2 => parseF fuel (PTask.arrItems (acc ++ [v])) r2
        | _ => Except.error ()
  | fuel + 1, PTask.objItems acc, l =>
    match skipWs l with
    | '\x7d' :: rest =>
      if acc.isEmpty then Except.ok (Json.obj [], rest) else Except.error ()
    | '"' :: rest =>
      match parseStrBody (rest.length + 1) rest [] with
      | Except.error e => Except.error e
      | Except.ok (k, r) =>
        match skipWs r with
        | ':' :: r2 =>
          match parseF fuel PTask.value r2 with
          | Except.error e => Except.error e
          | Except.ok (v, r3) =>
            match skipWs r3 with
            | '\x7d' :: r4 => Except.ok (Json.obj (acc ++ [(k, v)]), r4)
            | ',' :: r4 => parseF fuel (PTask.objItems (acc ++ [(k, v)])) r4
            | _ => Except.error ()
        | _ => Except.error ()
    | _ => Except.error ()

/-- json.loads on one text: scan one value, then require only whitespace
to follow (Python's Extra data check). -/
def json_loads (s : String) : Except Unit Json :=
  match parseF (2 * s.data.length + 4) PTask.value s.data with
  | Except.error e => Except.error e
  | Except.ok (j, rest) => if (skipWs rest).isEmpty then Except.ok j else Except.error ()

/-- Value of a key in a decoded object: Python's dict keeps the last
occurrence of a duplicated key. -/
def lookupLast (kvs : List (String × Json)) (k : String) : Option Json :=
  match kvs with
  | [] => none
  | (k2, v) :: rest =>
    match lookupLast rest k with
    | some r => some r
    | none => if k2 = k then some v else none

/-- The Python exception kinds the client code can raise.  `osError`
(Python's OSError, alias IOError) is part of the taxonomy for write/read
failures on a broken pipe; the model's writes to a live pipe always
succeed, so the client paths below raise only the other three kinds:
AttributeError (attribute access on None or on a non-dict), RuntimeError
(the explicit raise in _send) and json.JSONDecodeError (a ValueError
subclass) from json.loads. -/
inductive PyErr where
  | attributeError : String → PyErr
  | runtimeError : String → PyErr
  | jsonDecodeError : PyErr
  | osError : String → PyErr
deriving DecidableEq

/-- Whether a raised exception is an I/O error in Python's sense, i.e. an
instance of OSError (alias IOError).  In Python's exception hierarchy
AttributeError, RuntimeError and json.JSONDecodeError (a ValueError) are
not OSError subclasses. -/
def PyErr.isIOError : PyErr → Bool
  | PyErr.osError _ => true
  | _ => false

/-- The request record built by EwsAnalyzerClient._send: the dict literal
with keys jsonrpc, id, method, params in that order.  The id starts at 0
in __init__ and is only ever incremented, hence a Nat. -/
structure RpcRequest where
  jsonrpc : String
  id : Nat
  method : String
  params : Json

/-- The request dict as a JSON value, in the insertion order of the dict
literal in _send. -/
def RpcRequest.toJson (r : RpcRequest) : Json :=
  Json.obj [("jsonrpc", Json.str r.jsonrpc), ("id", Json.num (Int.ofNat r.id)),
    ("method", Json.str r.method), ("params", r.params)]

/-- Shorthand for the request record _send builds for a given id, method
and params. -/
def mkRequest (rid : Nat) (method : String) (params : Json) : RpcRequest :=
  ⟨"2.0", rid, method, params⟩

/-- The exact text _send writes for one request: json.dumps of the record
plus one newline. -/
def requestLine (rid : Nat) (method : String) (params : Json) : String :=
  (mkRequest rid method params).toJson.dumps ++ "\n"

/-- The child process handle with its two protocol streams: everything the
client has written to its stdin (in order), and the lines the child will
produce on its stdout (readline takes the head; an empty list means end of
stream). -/
structure Proc where
  stdinWritten : List String
  stdoutPending : List String

/-- EwsAnalyzerClient state: `process` and `_request_id` from __init__,
together with observation logs — `sent` records every request record
written to a child's stdin (in order), and `terminations` counts
process.terminate() calls — and the ambient working directory `cwd` that
os.path.abspath resolves against. -/
structure ClientState where
  process : Option Proc
  requestId : Nat
  sent : List RpcRequest
  terminations : Nat
  cwd : String

/-- A freshly constructed client: no process, _request_id = 0. -/
def initClient (cwd : String) : ClientState :=
  ⟨none, 0, [], 0, cwd⟩

/-- EwsAnalyzerClient._send: increment the id, build the request record,
write and flush its single-line serialization, then read one response
line; end of stream raises RuntimeError("MCP server closed unexpectedly"),
an undecodable line raises json.JSONDecodeError, otherwise the parsed
response is returned.  When `process` is None the attribute access
`self.process.stdin` raises AttributeError — after the id was already
incremented.  Every branch returns the post-state alongside the result,
since in Python the state mutations survive a raised exception. -/
def _send (method : String) (params : Json) (s : ClientState) :
    Except PyErr Json × ClientState :=
  let rid := s.requestId + 1
  match s.process with
  | none =>
    (Except.error (PyErr.attributeError "NoneType object has no attribute stdin"),
     { s with requestId := rid })
  | some p =>
    let request := mkRequest rid method params
    let line := request.toJson.dumps ++ "\n"
    let p1 : Proc := { p with stdinWritten := p.stdinWritten ++ [line] }
    match p1.stdoutPending with
    | [] =>
      (Except.error (PyErr.runtimeError "MCP server closed unexpectedly"),
       { s with requestId := rid, process := some p1, sent := s.sent ++ [request] })
    | response_line :: rest =>
      let p2 : Proc := { p1 with stdoutPending := rest }
      let s2 : ClientState :=
        { s with requestId := rid, process := some p2, sent := s.sent ++ [request] }
      if response_line = "" then
        (Except.error (PyErr.runtimeError "MCP server closed unexpectedly"), s2)
      else
        match json_loads response_line with
        | Except.error _ => (Except.error PyErr.jsonDecodeError, s2)
        | Except.ok j => (Except.ok j, s2)

/-- Python's dict.get(key, default) on a decoded JSON value: on a dict it
returns the key's value or the default; on any non-dict value the
attribute access .get raises AttributeError. -/
def dictGet (j : Json) (key : String) (dflt : Json) : Except PyErr Json :=
  match j with
  | Json.obj kvs => Except.ok ((lookupLast kvs key).getD dflt)
  | _ => Except.error (PyErr.attributeError "object has no attribute get")

/-- EwsAnalyzerClient.start: spawn the child (modelled by installing a
fresh process whose scripted stdout is `script`), then send the initialize
request and extract response.get("result", \x7b\x7d).get("serverInfo",
\x7b\x7d).get("name", "?").  Python prints that server name and returns
self; the model returns the extracted name.  Note _request_id is not
reset. -/
def start (script : List String) (s : ClientState) : Except PyErr Json × ClientState :=
  let s1 : ClientState := { s with process := some ⟨[], script⟩ }
  match _send "initialize" (Json.obj []) s1 with
  | (Except.error e, s2) => (Except.error e, s2)
  | (Except.ok response, s2) =>
    match dictGet response "result" (Json.obj []) with
    | Except.error e => (Except.error e, s2)
    | Except.ok r1 =>
      match dictGet r1 "serverInfo" (Json.obj []) with
      | Except.error e => (Except.error e, s2)
      | Except.ok r2 =>
        match dictGet r2 "name" (Json.str "?") with
        | Except.error e => (Except.error e, s2)
        | Except.ok server_name => (Except.ok server_name, s2)

/-- EwsAnalyzerClient.stop: if a process handle exists, attempt the
shutdown request, discarding its result and any exception (try/except
pass), then terminate the process and clear the handle; with no handle it
does nothing. -/
def stop (s : ClientState) : ClientState :=
  match s.process with
  | none => s
  | some _ =>
    let s1 := (_send "shutdown" (Json.obj []) s).2
    { s1 with process := none, terminations := s1.terminations + 1 }

/-- posixpath.isabs: the path begins with a slash. -/
def isabs (p : String) : Bool :=
  match p.data with
  | c :: _ => c = '/'
  | [] => false

/-- The path ends with a slash (posixpath.join's endswith(sep) test). -/
def endsSlash (p : String) : Bool :=
  match p.data.getLast? with
  | some '/' => true
  | _ => false

/-- posixpath.join of two components. -/
def joinTwo (a b : String) : String :=
  if isabs b then b
  else if a = "" || endsSlash a then a ++ b
  else a ++ "/" ++ b

/-- str.split("/") on the character list. -/
def splitSlashAux : List Char → List Char → List String
  | [], acc => [String.mk acc.reverse]
  | c :: rest, acc =>
    if c = '/' then String.mk acc.reverse :: splitSlashAux rest []
    else splitSlashAux rest (c :: acc)

/-- str.split("/"). -/
def splitSlash (p : String) : List String := splitSlashAux p.data []

/-- "/".join(components). -/
def joinSlash : List String → String
  | [] => ""
  | [x] => x
  | x :: xs => x ++ "/" ++ joinSlash xs

/-- One step of posixpath.normpath's component merge: drop empty and "."
components; append a component unless it is a ".." that cancels a previous
real component. -/
def normStep (hasInitialSlash : Bool) (acc : List String) (comp : String) : List String :=
  if comp == "" || comp == "." then acc
  else if comp != ".." || (!hasInitialSlash && acc.isEmpty) ||
      (!acc.isEmpty && acc.getLast? == some "..") then acc ++ [comp]
  else if acc.isEmpty then acc
  else acc.dropLast

/-- The path begins with two slashes. -/
def startsSlashes2 (p : String) : Bool :=
  match p.data with
  | a :: b :: _ => a = '/' && b = '/'
  | _ => false

/-- The path begins with three slashes. -/
def startsSlashes3 (p : String) : Bool :=
  match p.data with
  | a :: b :: c :: _ => a = '/' && b = '/' && c = '/'
  | _ => false

/-- posixpath.normpath: collapse repeated separators and resolve "." and
".." components, preserving one leading slash (or the POSIX-special two). -/
def normpath (p : String) : String :=
  if p = "" then "."
  else
    let one := isabs p
    let two := one && startsSlashes2 p && !startsSlashes3 p
    let merged := (splitSlash p).foldl (normStep one) []
    let core := joinSlash merged
    let res := if two then "//" ++ core else if one then "/" ++ core else core
    if res = "" then "." else res

/-- posixpath.abspath against an ambient working directory: join a
relative path onto cwd, then normalize. -/
def os_path_abspath (cwd p : String) : String :=
  if isabs p then normpath p else normpath (joinTwo cwd p)

/-- EwsAnalyzerClient.list_tools: send tools/list and return
resp.get("result", \x7b\x7d).get("tools", []). -/
def list_tools (s : ClientState) : Except PyErr Json × ClientState :=
  match _send "tools/list" (Json.obj []) s with
  | (Except.error e, s1) => (Except.error e, s1)
  | (Except.ok resp, s1) =>
    match dictGet resp "result" (Json.obj []) with
    | Except.error e => (Except.error e, s1)
    | Except.ok r => (dictGet r "tools" (Json.arr []), s1)

/-- EwsAnalyzerClient.analyze_code: tools/call analyzeCode with
arguments \x7bsources: [\x7bcode\x7d]\x7d, returning resp.get("result",
\x7b\x7d). -/
def analyze_code (code : String) (s : ClientState) : Except PyErr Json × ClientState :=
  match _send "tools/call" (Json.obj [("name", Json.str "analyzeCode"),
      ("arguments", Json.obj [("sources", Json.arr [Json.obj [("code", Json.str code)]])])]) s with
  | (Except.error e, s1) => (Except.error e, s1)
  | (Except.ok resp, s1) => (dictGet resp "result" (Json.obj []), s1)

/-- EwsAnalyzerClient.analyze_file: tools/call analyzeFile with the path
resolved by os.path.abspath. -/
def analyze_file (path : String) (s : ClientState) : Except PyErr Json × ClientState :=
  match _send "tools/call" (Json.obj [("name", Json.str "analyzeFile"),
      ("arguments", Json.obj [("path", Json.str (os_path_abspath s.cwd path))])]) s with
  | (Except.error e, s1) => (Except.error e, s1)
  | (Except.ok resp, s1) => (dictGet resp "result" (Json.obj []), s1)

/-- EwsAnalyzerClient.convert_to_graph: tools/call convertToGraph with
arguments \x7bcode\x7d, plus a tier member exactly when the optional tier
argument was provided (Python's tier: int = None default). -/
def convert_to_graph (code : String) (tier : Option Int) (s : ClientState) :
    Except PyErr Json × ClientState :=
  let args :=
    match tier with
    | none => Json.obj [("code", Json.str code)]
    | some t => Json.obj [("code", Json.str code), ("tier", Json.num t)]
  match _send "tools/call" (Json.obj [("name", Json.str "convertToGraph"),
      ("arguments", args)]) s with
  | (Except.error e, s1) => (Except.error e, s1)
  | (Except.ok resp, s1) => (dictGet resp "result" (Json.obj []), s1)

/-- The default value of convert_auth's auth_method parameter. -/
def convert_auth_default_method : String := "clientCredential"

/-- EwsAnalyzerClient.convert_auth: tools/call convertAuth with arguments
\x7bcode, authMethod\x7d; a `none` auth_method models calling the Python
method without the argument, which fills in the default
"clientCredential". -/
def convert_auth (code : String) (auth_method : Option String) (s : ClientState) :
    Except PyErr Json × ClientState :=
  let am := auth_method.getD convert_auth_default_method
  match _send "tools/call" (Json.obj [("name", Json.str "convertAuth"),
      ("arguments", Json.obj [("code", Json.str code), ("authMethod", Json.str am)])]) s with
  | (Except.error e, s1) => (Except.error e, s1)
  | (Except.ok resp, s1) => (dictGet resp "result" (Json.obj []), s1)

/-- EwsAnalyzerClient.get_roadmap: tools/call getRoadmap with arguments
\x7bsdkQualifiedName\x7d. -/
def get_roadmap (sdk_qualified_name : String) (s : ClientState) :
    Except PyErr Json × ClientState :=
  match _send "tools/call" (Json.obj [("name", Json.str "getRoadmap"),
      ("arguments", Json.obj [("sdkQualifiedName", Json.str sdk_qualified_name)])]) s with
  | (Except.error e, s1) => (Except.error e, s1)
  | (Except.ok resp, s1) => (dictGet resp "result" (Json.obj []), s1)

/-- EwsAnalyzerClient.add_allowed_path: tools/call addAllowedPath with the
path resolved by os.path.abspath. -/
def add_allowed_path (path : String) (s : ClientState) : Except PyErr Json × ClientState :=
  match _send "tools/call" (Json.obj [("name", Json.str "addAllowedPath"),
      ("arguments", Json.obj [("path", Json.str (os_path_abspath s.cwd path))])]) s with
  | (Except.error e, s1) => (Except.error e, s1)
  | (Except.ok resp, s1) => (dictGet resp "result" (Json.obj []), s1)

/-- The default value of migration_readiness's max_files parameter. -/
def migration_readiness_default_max_files : Int := 500

/-- EwsAnalyzerClient.migration_readiness: first add_allowed_path on the
root path (aborting if it raises), then tools/call getMigrationReadiness
with arguments \x7brootPath: absolute, maxFiles\x7d; a `none` max_files
models calling the Python method without the argument (default 500). -/
def migration_readiness (root_path : String) (max_files : Option Int) (s : ClientState) :
    Except PyErr Json × ClientState :=
  let mf := max_files.getD migration_readiness_default_max_files
  match add_allowed_path root_path s with
  | (Except.error e, s1) => (Except.error e, s1)
  | (Except.ok _, s1) =>
    match _send "tools/call" (Json.obj [("name", Json.str "getMigrationReadiness"),
        ("arguments", Json.obj [("rootPath", Json.str (os_path_abspath s1.cwd root_path)),
          ("maxFiles", Json.num mf)])]) s1 with
    | (Except.error e, s2) => (Except.error e, s2)
    | (Except.ok resp, s2) => (dictGet resp "result" (Json.obj []), s2)

/-- A straight-line sequence of _send calls (the way the demo drives the
channel): each call runs on the state the previous one left; a raised
exception aborts the rest of the sequence, as in Python. -/
def runCalls : List (String × Json) → ClientState → ClientState
  | [], s => s
  | (m, q) :: rest, s =>
    match _send m q s with
    | (Except.ok _, s1) => runCalls rest s1
    | (Except.error _, s1) => s1

/-- The default primary path of get_config. -/
def get_config_local_default : String := "./appsettings.local.json"

/-- The default fallback path of get_config. -/
def get_config_fallback_default : String := "./appsettings.json"

/-- ews_utilities.get_config over a filesystem mapping paths to file
contents: parse the primary (local) file when it exists, otherwise the
fallback file when it exists, otherwise return None.  Alongside the
result, the list of paths whose file was opened and read, in order.
json.load on an unparseable file raises (and escapes get_config). -/
def get_config (fs : String → Option String)
    (local_config_path default_config_path : String) :
    Except PyErr (Option Json) × List String :=
  match fs local_config_path with
  | some content =>
    (match json_loads content with
     | Except.ok j => (Except.ok (some j), [local_config_path])
     | Except.error _ => (Except.error PyErr.jsonDecodeError, [local_config_path]))
  | none =>
    match fs default_config_path with
    | some content =>
      (match json_loads content with
       | Except.ok j => (Except.ok (some j), [default_config_path])
       | Except.error _ => (Except.error PyErr.jsonDecodeError, [default_config_path]))
    | none => (Except.ok none, [])

theorem data_append_eq (s t : String) : (s ++ t).data = s.data ++ t.data := rfl

theorem send_none_eq (m : String) (q : Json) (s : ClientState) (h : s.process = none) :
    _send m q s = (Except.error (PyErr.attributeError "NoneType object has no attribute stdin"),
      { s with requestId := s.requestId + 1 }) := by
  unfold _send
  rw [h]

theorem send_live_snd (m : String) (q : Json) (s : ClientState) (p : Proc)
    (h : s.process = some p) :
    (_send m q s).2 =
      ⟨some ⟨p.stdinWritten ++ [requestLine (s.requestId + 1) m q], p.stdoutPending.tail⟩,
        s.requestId + 1, s.sent ++ [mkRequest (s.requestId + 1) m q], s.terminations,
        s.cwd⟩ := by
  unfold _send
  rw [h]
  simp only [requestLine]
  cases hp : p.stdoutPending with
  | nil => simp [hp]
  | cons l r =>
    by_cases hl : l = ""
    · simp [hp, hl]
    · cases hjl : json_loads l with
      | error e => simp [hp, hl, hjl]
      | ok j => simp [hp, hl, hjl]

theorem send_eof_fst (m : String) (q : Json) (s : ClientState) (p : Proc)
    (h : s.process = some p) (he : p.stdoutPending = []) :
    (_send m q s).1 = Except.error (PyErr.runtimeError "MCP server closed unexpectedly") := by
  unfold _send
  rw [h]
  simp [he]

theorem send_ok_fst (m : String) (q : Json) (s : ClientState) (p : Proc) (l : String)
    (r : List String) (j : Json) (h : s.process = some p) (hp : p.stdoutPending = l :: r)
    (hl : l ≠ "") (hj : json_loads l = Except.ok j) :
    (_send m q s).1 = Except.ok j := by
  unfold _send
  rw [h]
  simp [hp, hl, hj]

theorem send_decode_fst (m : String) (q : Json) (s : ClientState) (p : Proc) (l : String)
    (r : List String) (h : s.process = some p) (hp : p.stdoutPending = l :: r)
    (hl : l ≠ "") (hj : json_loads l = Except.error ()) :
    (_send m q s).1 = Except.error PyErr.jsonDecodeError := by
  unfold _send
  rw [h]
  simp [hp, hl, hj]

theorem start_snd (script : List String) (s : ClientState) :
    (start script s).2 =
      (_send "initialize" (Json.obj []) { s with process := some ⟨[], script⟩ }).2 := by
  unfold start
  rcases hm : _send "initialize" (Json.obj []) { s with process := some ⟨[], script⟩ } with ⟨r, s2⟩
  simp only [hm]
  cases r with
  | error e => rfl
  | ok resp =>
    cases h1 : dictGet resp "result" (Json.obj []) with
    | error e => simp [h1]
    | ok r1 =>
      cases h2 : dictGet r1 "serverInfo" (Json.obj []) with
      | error e => simp [h1, h2]
      | ok r2 =>
        cases h3 : dictGet r2 "name" (Json.str "?") with
        | error e => simp [h1, h2, h3]
        | ok nm => simp [h1, h2, h3]

/-- The id bookkeeping invariant of a channel: the counter equals the
number of requests ever sent, and the sent requests carry ids 1, 2, ... in
order. -/
def idsOk (s : ClientState) : Prop :=
  s.requestId = s.sent.length ∧ s.sent.map RpcRequest.id = List.range' 1 s.sent.length

theorem idsOk_initClient (cwd : String) : idsOk (initClient cwd) := ⟨rfl, rfl⟩

theorem idsOk_send (m : String) (q : Json) (s : ClientState) (p : Proc)
    (h : s.process = some p) (hi : idsOk s) :
    idsOk (_send m q s).2 ∧ ∃ p2, (_send m q s).2.process = some p2 := by
  rw [send_live_snd m q s p h]
  obtain ⟨h1, h2⟩ := hi
  refine ⟨⟨by simp [h1], ?_⟩, ⟨_, rfl⟩⟩
  simp only [List.map_append, h2, List.length_append, List.map_cons, List.map_nil,
    List.length_cons, List.length_nil]
  rw [List.range'_concat]
  congr 1
  simp [mkRequest, h1]
  omega

theorem idsOk_runCalls (calls : List (String × Json)) :
    ∀ s : ClientState, (∃ p, s.process = some p) → idsOk s → idsOk (runCalls calls s) := by
  induction calls with
  | nil => intro s _ hi; exact hi
  | cons mq rest ih =>
    obtain ⟨m, q⟩ := mq
    intro s hp hi
    obtain ⟨p, hp⟩ := hp
    obtain ⟨hOk, hSome⟩ := idsOk_send m q s p hp hi
    unfold runCalls
    rcases hm : _send m q s with ⟨r, s1⟩
    have hs : (_send m q s).2 = s1 := by rw [hm]
    rw [hs] at hOk hSome
    cases r with
    | ok j => exact ih s1 hSome hOk
    | error e => exact hOk

theorem idsOk_after_start (cwd : String) (script : List String) :
    idsOk (start script (initClient cwd)).2 ∧
    ∃ p2, (start script (initClient cwd)).2.process = some p2 := by
  rw [start_snd]
  exact idsOk_send "initialize" (Json.obj [])
    { initClient cwd with process := some ⟨[], script⟩ } ⟨[], script⟩ rfl ⟨rfl, rfl⟩

theorem isabs_append (a b : String) (h : isabs a = true) : isabs (a ++ b) = true := by
  unfold isabs at *
  rw [data_append_eq]
  cases ha : a.data with
  | nil => rw [ha] at h; exact absurd h (by simp)
  | cons c rest => rw [ha] at h; simpa using h

theorem isabs_joinTwo (a b : String) (h : isabs a = true) : isabs (joinTwo a b) = true := by
  unfold joinTwo
  split_ifs with h1 h2
  · exact h1
  · rcases (Bool.or_eq_true _ _).mp h2 with h3 | h3
    · have he : a = "" := by simpa using h3
      rw [he] at h
      exact absurd h (by decide)
    · exact isabs_append a b h
  · exact isabs_append (a ++ "/") b (isabs_append a "/" h)

theorem slash_pre_abs1 (core : String) : ("/" ++ core) ≠ "" ∧ isabs ("/" ++ core) = true := by
  have hd : ("/" ++ core).data = '/' :: core.data := by rw [data_append_eq]; rfl
  constructor
  · intro he
    have hdata := congrArg String.data he
    rw [hd] at hdata
    have hnil : ("" : String).data = [] := rfl
    rw [hnil] at hdata
    exact List.cons_ne_nil _ _ hdata
  · unfold isabs
    rw [hd]
    rfl

theorem slash_pre_abs2 (core : String) : ("//" ++ core) ≠ "" ∧ isabs ("//" ++ core) = true := by
  have hd : ("//" ++ core).data = '/' :: '/' :: core.data := by rw [data_append_eq]; rfl
  constructor
  · intro he
    have hdata := congrArg String.data he
    rw [hd] at hdata
    have hnil : ("" : String).data = [] := rfl
    rw [hnil] at hdata
    exact List.cons_ne_nil _ _ hdata
  · unfold isabs
    rw [hd]
    rfl

theorem isabs_normpath (p : String) (h : isabs p = true) : isabs (normpath p) = true := by
  have hp : p ≠ "" := by
    intro he
    rw [he] at h
    exact absurd h (by decide)
  unfold normpath
  rw [if_neg hp]
  simp only [h, Bool.true_and]
  by_cases hb : (startsSlashes2 p && !startsSlashes3 p) = true
  · rw [if_pos hb]
    obtain ⟨hne, habs⟩ :=
      slash_pre_abs2 (joinSlash ((splitSlash p).foldl (normStep true) []))
    rw [if_neg hne]
    exact habs
  · rw [if_neg hb]
    simp only [if_true]
    obtain ⟨hne, habs⟩ :=
      slash_pre_abs1 (joinSlash ((splitSlash p).foldl (normStep true) []))
    rw [if_neg hne]
    exact habs

theorem isabs_os_path_abspath (cwd p : String) (h : isabs cwd = true) :
    isabs (os_path_abspath cwd p) = true := by
  unfold os_path_abspath
  split_ifs with h1
  · exact isabs_normpath p h1
  · exact isabs_normpath _ (isabs_joinTwo cwd p h)

/-- C1: On one channel instance, request ids are strictly increasing
integers starting at 1, assigned at send time: counting every request sent
through the channel (including the initialize handshake issued by start()),
the i-th request carries id i, and for all sequences of call() invocations
the ids are strictly increasing starting at 1.  Stated over an arbitrary
child script and an arbitrary sequence of calls driven after start() on a
fresh client. -/
theorem request_ids_sequential_from_one (cwd : String) (script : List String)
    (calls : List (String × Json)) :
    (∀ i (h : i < (runCalls calls (start script (initClient cwd)).2).sent.length),
      ((runCalls calls (start script (initClient cwd)).2).sent.get ⟨i, h⟩).id = i + 1) ∧
    (∀ i j (hi : i < (runCalls calls (start script (initClient cwd)).2).sent.length)
      (hj : j < (runCalls calls (start script (initClient cwd)).2).sent.length), i < j →
      ((runCalls calls (start script (initClient cwd)).2).sent.get ⟨i, hi⟩).id <
        ((runCalls calls (start script (initClient cwd)).2).sent.get ⟨j, hj⟩).id) := by
  obtain ⟨hOk, hSome⟩ := idsOk_after_start cwd script
  obtain ⟨hlen, hmap⟩ := idsOk_runCalls calls _ hSome hOk
  have hid : ∀ i (h : i < (runCalls calls (start script (initClient cwd)).2).sent.length),
      ((runCalls calls (start script (initClient cwd)).2).sent.get ⟨i, h⟩).id = i + 1 := by
    intro i h
    have hmlen : i <
        ((runCalls calls (start script (initClient cwd)).2).sent.map RpcRequest.id).length := by
      simpa using h
    have hrlen : i < (List.range' 1
        (runCalls calls (start script (initClient cwd)).2).sent.length).length := by
      simpa using h
    have e4 : ((runCalls calls (start script (initClient cwd)).2).sent.map
        RpcRequest.id)[i]? = some (1 + i) := by
      rw [hmap, List.getElem?_eq_getElem hrlen, List.getElem_range'_1]
    have e5 : ((runCalls calls (start script (initClient cwd)).2).sent.map
        RpcRequest.id)[i]? =
        some (((runCalls calls (start script (initClient cwd)).2).sent.get ⟨i, h⟩).id) := by
      rw [List.getElem?_eq_getElem hmlen]
      simp
    rw [e4] at e5
    have e6 := Option.some.inj e5
    omega
  refine ⟨hid, fun i j hi hj hij => ?_⟩
  rw [hid i hi, hid j hj]
  omega

theorem request_ids_sequential_from_one_witness :
    (0 < (runCalls [("tools/list", Json.obj [])]
      (start ["\x7b\x7d", "\x7b\x7d"] (initClient "/")).2).sent.length) ∧
    ((runCalls [("tools/list", Json.obj [])]
      (start ["\x7b\x7d", "\x7b\x7d"] (initClient "/")).2).sent.get ⟨0, by decide⟩).id = 0 + 1 :=
  ⟨by decide,
    (request_ids_sequential_from_one "/" ["\x7b\x7d", "\x7b\x7d"]
      [("tools/list", Json.obj [])]).1 0 (by decide)⟩

/-- C2: For every method name and params structure, call() constructs a
request record with exactly the fields jsonrpc = "2.0", the freshly
assigned id, the method and the params; serializes it to a single-line
JSON text (no embedded newline) followed by exactly one newline
terminator; and writes that line to the child's stdin before attempting to
read — the written line appears in the post-state's stdin for every
outcome of the subsequent read. -/
theorem send_writes_single_json_line (m : String) (q : Json) (s : ClientState) (p : Proc)
    (h : s.process = some p) :
    (mkRequest (s.requestId + 1) m q).toJson =
      Json.obj [("jsonrpc", Json.str "2.0"), ("id", Json.num (Int.ofNat (s.requestId + 1))),
        ("method", Json.str m), ("params", q)] ∧
    (_send m q s).2.process =
      some ⟨p.stdinWritten ++ [requestLine (s.requestId + 1) m q], p.stdoutPending.tail⟩ ∧
    requestLine (s.requestId + 1) m q = (mkRequest (s.requestId + 1) m q).toJson.dumps ++ "\n" ∧
    '\n' ∉ ((mkRequest (s.requestId + 1) m q).toJson.dumps).data := by
  refine ⟨rfl, ?_, rfl, ?_⟩
  · rw [send_live_snd m q s p h]
  · exact dumpsVal_no_newline _

theorem send_writes_single_json_line_witness :
    ((⟨some ⟨[], []⟩, 0, [], 0, "/"⟩ : ClientState).process = some (⟨[], []⟩ : Proc)) ∧
    '\n' ∉ ((mkRequest 1 "tools/list" (Json.obj [])).toJson.dumps).data :=
  ⟨rfl, (send_writes_single_json_line "tools/list" (Json.obj [])
    ⟨some ⟨[], []⟩, 0, [], 0, "/"⟩ ⟨[], []⟩ rfl).2.2.2⟩

/-- C3: For every call() in which reading one line from the child's output
stream yields no data (end of stream), call() fails with the "channel
closed" error — the explicit RuntimeError whose message is "MCP server
closed unexpectedly" — rather than returning a value, and this error kind
is distinct from the protocol decode failure kind. -/
theorem send_eof_channel_closed (m : String) (q : Json) (s : ClientState) (p : Proc)
    (h : s.process = some p) (he : p.stdoutPending = []) :
    (_send m q s).1 = Except.error (PyErr.runtimeError "MCP server closed unexpectedly") ∧
    (∀ msg, (Except.error (PyErr.runtimeError msg) : Except PyErr Json) ≠
      Except.error PyErr.jsonDecodeError) := by
  refine ⟨send_eof_fst m q s p h he, ?_⟩
  intro msg hcontra
  simp at hcontra

theorem send_eof_channel_closed_witness :
    ((⟨some ⟨[], []⟩, 0, [], 0, "/"⟩ : ClientState).process = some (⟨[], []⟩ : Proc)) ∧
    (⟨[], []⟩ : Proc).stdoutPending = [] ∧
    (_send "tools/list" (Json.obj []) ⟨some ⟨[], []⟩, 0, [], 0, "/"⟩).1 =
      Except.error (PyErr.runtimeError "MCP server closed unexpectedly") :=
  ⟨rfl, rfl, (send_eof_channel_closed "tools/list" (Json.obj [])
    ⟨some ⟨[], []⟩, 0, [], 0, "/"⟩ ⟨[], []⟩ rfl rfl).1⟩

/-- C4: stop() is idempotent — stop();stop() leaves exactly the state of a
single stop(), with no error on either call; on an already-cleared handle
it is a no-op that sends nothing; on a live supervisor it attempts the
shutdown notification (whose request is recorded in the send log, and
whose result or error is discarded), then terminates the process exactly
once and clears the handle, and the second stop() sends no second
shutdown notification and performs no second termination. -/
theorem stop_idempotent (s : ClientState) :
    stop (stop s) = stop s ∧
    (s.process = none → stop s = s) ∧
    (∀ p, s.process = some p →
      (stop s).process = none ∧
      (stop s).terminations = s.terminations + 1 ∧
      (stop s).sent = s.sent ++ [mkRequest (s.requestId + 1) "shutdown" (Json.obj [])] ∧
      (stop (stop s)).sent = (stop s).sent ∧
      (stop (stop s)).terminations = (stop s).terminations) := by
  have hnone : ∀ t : ClientState, t.process = none → stop t = t := by
    intro t h
    unfold stop
    rw [h]
  have hsome : ∀ (t : ClientState) (p : Proc), t.process = some p →
      stop t = ⟨none, t.requestId + 1,
        t.sent ++ [mkRequest (t.requestId + 1) "shutdown" (Json.obj [])],
        t.terminations + 1, t.cwd⟩ := by
    intro t p h
    unfold stop
    rw [h]
    simp only [send_live_snd "shutdown" (Json.obj []) t p h]
  refine ⟨?_, hnone s, ?_⟩
  · cases hsp : s.process with
    | none =>
      have h1 := hnone s hsp
      rw [h1]
      exact h1
    | some p =>
      have h1 := hsome s p hsp
      rw [h1]
      exact hnone _ rfl
  · intro p hp
    have h1 := hsome s p hp
    rw [h1]
    have h2 := hnone (⟨none, s.requestId + 1,
      s.sent ++ [mkRequest (s.requestId + 1) "shutdown" (Json.obj [])],
      s.terminations + 1, s.cwd⟩ : ClientState) rfl
    rw [h2]
    exact ⟨rfl, rfl, rfl, rfl, rfl⟩

theorem stop_idempotent_witness :
    stop (stop (⟨some ⟨[], []⟩, 0, [], 0, "/"⟩ : ClientState)) =
      stop (⟨some ⟨[], []⟩, 0, [], 0, "/"⟩ : ClientState) ∧
    ((⟨some ⟨[], []⟩, 0, [], 0, "/"⟩ : ClientState).process = some (⟨[], []⟩ : Proc)) ∧
    (stop (⟨some ⟨[], []⟩, 0, [], 0, "/"⟩ : ClientState)).sent =
      [] ++ [mkRequest 1 "shutdown" (Json.obj [])] :=
  ⟨(stop_idempotent ⟨some ⟨[], []⟩, 0, [], 0, "/"⟩).1, rfl,
    ((stop_idempotent ⟨some ⟨[], []⟩, 0, [], 0, "/"⟩).2.2 ⟨[], []⟩ rfl).2.2.1⟩

/-- C5 (counterexample): the claim says a call() on a stopped channel
fails with an I/O error.  On a concretely started-then-stopped channel the
call does fail, but with an AttributeError from the cleared process handle
(self.process is None), which is not an OSError/IOError in Python's
exception hierarchy. -/
theorem stopped_call_error_is_not_io_error :
    (stop (start ["\x7b\x7d"] (initClient "/")).2).process = none ∧
    (_send "tools/list" (Json.obj []) (stop (start ["\x7b\x7d"] (initClient "/")).2)).1 =
      Except.error (PyErr.attributeError "NoneType object has no attribute stdin") ∧
    PyErr.isIOError (PyErr.attributeError "NoneType object has no attribute stdin") = false :=
  ⟨rfl, rfl, rfl⟩

/-- C5 (amended): after stop() completes the channel is dead — every
subsequent call() (and every wrapper, which routes through call()) fails
by raising, but the raised error is an AttributeError from the cleared
process handle, not an I/O error; the id counter still advances and no
line is written. -/
theorem send_after_stop_attribute_error (m : String) (q : Json) (s : ClientState)
    (h : s.process = none) :
    _send m q s = (Except.error (PyErr.attributeError "NoneType object has no attribute stdin"),
      { s with requestId := s.requestId + 1 }) ∧
    PyErr.isIOError (PyErr.attributeError "NoneType object has no attribute stdin") = false ∧
    (∀ code, (analyze_code code s).1 =
      Except.error (PyErr.attributeError "NoneType object has no attribute stdin")) ∧
    (list_tools s).1 =
      Except.error (PyErr.attributeError "NoneType object has no attribute stdin") := by
  refine ⟨send_none_eq m q s h, rfl, ?_, ?_⟩
  · intro code
    unfold analyze_code
    rw [send_none_eq _ _ s h]
  · unfold list_tools
    rw [send_none_eq _ _ s h]

theorem send_after_stop_attribute_error_witness :
    ((⟨none, 5, [], 1, "/"⟩ : ClientState).process = none) ∧
    (_send "tools/list" (Json.obj []) ⟨none, 5, [], 1, "/"⟩ =
      (Except.error (PyErr.attributeError "NoneType object has no attribute stdin"),
        { (⟨none, 5, [], 1, "/"⟩ : ClientState) with requestId := 5 + 1 })) :=
  ⟨rfl, (send_after_stop_attribute_error "tools/list" (Json.obj [])
    ⟨none, 5, [], 1, "/"⟩ rfl).1⟩

theorem send_snd_sent (m : String) (q : Json) (s : ClientState) (p : Proc)
    (h : s.process = some p) :
    (_send m q s).2.sent = s.sent ++ [mkRequest (s.requestId + 1) m q] := by
  rw [send_live_snd m q s p h]

theorem send_snd_process (m : String) (q : Json) (s : ClientState) (p : Proc)
    (h : s.process = some p) :
    (_send m q s).2.process =
      some ⟨p.stdinWritten ++ [requestLine (s.requestId + 1) m q], p.stdoutPending.tail⟩ := by
  rw [send_live_snd m q s p h]

theorem send_snd_requestId (m : String) (q : Json) (s : ClientState) (p : Proc)
    (h : s.process = some p) :
    (_send m q s).2.requestId = s.requestId + 1 := by
  rw [send_live_snd m q s p h]

theorem send_snd_cwd (m : String) (q : Json) (s : ClientState) (p : Proc)
    (h : s.process = some p) :
    (_send m q s).2.cwd = s.cwd := by
  rw [send_live_snd m q s p h]

theorem send_pair_ok (m : String) (q : Json) (s : ClientState) (p : Proc) (l : String)
    (ls : List String) (j : Json) (h : s.process = some p) (hp : p.stdoutPending = l :: ls)
    (hl : l ≠ "") (hload : json_loads l = Except.ok j) :
    _send m q s = (Except.ok j, (_send m q s).2) := by
  have h1 := send_ok_fst m q s p l ls j h hp hl hload
  exact Prod.ext h1 rfl

theorem list_tools_snd (s : ClientState) :
    (list_tools s).2 = (_send "tools/list" (Json.obj []) s).2 := by
  unfold list_tools
  rcases hm : _send "tools/list" (Json.obj []) s with ⟨r, s1⟩
  simp only [hm]
  cases r with
  | error e => rfl
  | ok resp => cases hd : dictGet resp "result" (Json.obj []) <;> simp [hd]

theorem analyze_code_snd (code : String) (s : ClientState) :
    (analyze_code code s).2 = (_send "tools/call" (Json.obj [("name", Json.str "analyzeCode"),
      ("arguments", Json.obj [("sources", Json.arr [Json.obj [("code", Json.str code)]])])]) s).2 := by
  unfold analyze_code
  rcases hm : _send "tools/call" (Json.obj [("name", Json.str "analyzeCode"),
    ("arguments", Json.obj [("sources", Json.arr [Json.obj [("code", Json.str code)]])])]) s
    with ⟨r, s1⟩
  simp only [hm]
  cases r <;> rfl

theorem analyze_file_snd (path : String) (s : ClientState) :
    (analyze_file path s).2 = (_send "tools/call" (Json.obj [("name", Json.str "analyzeFile"),
      ("arguments", Json.obj [("path", Json.str (os_path_abspath s.cwd path))])]) s).2 := by
  unfold analyze_file
  rcases hm : _send "tools/call" (Json.obj [("name", Json.str "analyzeFile"),
    ("arguments", Json.obj [("path", Json.str (os_path_abspath s.cwd path))])]) s with ⟨r, s1⟩
  simp only [hm]
  cases r <;> rfl

theorem convert_to_graph_none_snd (code : String) (s : ClientState) :
    (convert_to_graph code none s).2 =
      (_send "tools/call" (Json.obj [("name", Json.str "convertToGraph"),
        ("arguments", Json.obj [("code", Json.str code)])]) s).2 := by
  unfold convert_to_graph
  rcases hm : _send "tools/call" (Json.obj [("name", Json.str "convertToGraph"),
    ("arguments", Json.obj [("code", Json.str code)])]) s with ⟨r, s1⟩
  simp only [hm]
  cases r <;> rfl

theorem convert_to_graph_some_snd (code : String) (t : Int) (s : ClientState) :
    (convert_to_graph code (some t) s).2 =
      (_send "tools/call" (Json.obj [("name", Json.str "convertToGraph"),
        ("arguments", Json.obj [("code", Json.str code), ("tier", Json.num t)])]) s).2 := by
  unfold convert_to_graph
  rcases hm : _send "tools/call" (Json.obj [("name", Json.str "convertToGraph"),
    ("arguments", Json.obj [("code", Json.str code), ("tier", Json.num t)])]) s with ⟨r, s1⟩
  simp only [hm]
  cases r <;> rfl

theorem convert_auth_snd (code : String) (am : Option String) (s : ClientState) :
    (convert_auth code am s).2 =
      (_send "tools/call" (Json.obj [("name", Json.str "convertAuth"),
        ("arguments", Json.obj [("code", Json.str code),
          ("authMethod", Json.str (am.getD convert_auth_default_method))])]) s).2 := by
  unfold convert_auth
  rcases hm : _send "tools/call" (Json.obj [("name", Json.str "convertAuth"),
    ("arguments", Json.obj [("code", Json.str code),
      ("authMethod", Json.str (am.getD convert_auth_default_method))])]) s with ⟨r, s1⟩
  simp only [hm]
  cases r <;> rfl

theorem get_roadmap_snd (sdkName : String) (s : ClientState) :
    (get_roadmap sdkName s).2 =
      (_send "tools/call" (Json.obj [("name", Json.str "getRoadmap"),
        ("arguments", Json.obj [("sdkQualifiedName", Json.str sdkName)])]) s).2 := by
  unfold get_roadmap
  rcases hm : _send "tools/call" (Json.obj [("name", Json.str "getRoadmap"),
    ("arguments", Json.obj [("sdkQualifiedName", Json.str sdkName)])]) s with ⟨r, s1⟩
  simp only [hm]
  cases r <;> rfl

theorem add_allowed_path_snd (path : String) (s : ClientState) :
    (add_allowed_path path s).2 =
      (_send "tools/call" (Json.obj [("name", Json.str "addAllowedPath"),
        ("arguments", Json.obj [("path", Json.str (os_path_abspath s.cwd path))])]) s).2 := by
  unfold add_allowed_path
  rcases hm : _send "tools/call" (Json.obj [("name", Json.str "addAllowedPath"),
    ("arguments", Json.obj [("path", Json.str (os_path_abspath s.cwd path))])]) s with ⟨r, s1⟩
  simp only [hm]
  cases r <;> rfl

theorem except_pair_snd (x : Except PyErr Json × ClientState)
    (f : Json → Except PyErr Json) :
    (match x with
      | (Except.error e, s1) => ((Except.error e : Except PyErr Json), s1)
      | (Except.ok resp, s1) => (f resp, s1)).2 = x.2 := by
  rcases x with ⟨r, s1⟩
  cases r <;> rfl

theorem migration_readiness_run (s : ClientState) (p : Proc) (root : String)
    (mf : Option Int) (l1 l2 : String) (ls : List String)
    (kvs1 kvs2 : List (String × Json)) (h : s.process = some p)
    (hp : p.stdoutPending = l1 :: l2 :: ls) (hl1 : l1 ≠ "") (hl2 : l2 ≠ "")
    (hload1 : json_loads l1 = Except.ok (Json.obj kvs1))
    (hload2 : json_loads l2 = Except.ok (Json.obj kvs2)) :
    (migration_readiness root mf s).2.sent = s.sent ++
      [mkRequest (s.requestId + 1) "tools/call"
        (Json.obj [("name", Json.str "addAllowedPath"),
          ("arguments", Json.obj [("path", Json.str (os_path_abspath s.cwd root))])]),
       mkRequest (s.requestId + 2) "tools/call"
        (Json.obj [("name", Json.str "getMigrationReadiness"),
          ("arguments", Json.obj [("rootPath", Json.str (os_path_abspath s.cwd root)),
            ("maxFiles", Json.num (mf.getD migration_readiness_default_max_files))])])] ∧
    (migration_readiness root mf s).1 =
      Except.ok ((lookupLast kvs2 "result").getD (Json.obj [])) := by
  have haap : add_allowed_path root s =
      (Except.ok ((lookupLast kvs1 "result").getD (Json.obj [])),
        (_send "tools/call" (Json.obj [("name", Json.str "addAllowedPath"),
          ("arguments", Json.obj [("path", Json.str (os_path_abspath s.cwd root))])]) s).2) := by
    simp only [add_allowed_path]
    rw [send_pair_ok "tools/call" _ s p l1 (l2 :: ls) (Json.obj kvs1) h hp hl1 hload1]
    rfl
  have hp2 : (_send "tools/call" (Json.obj [("name", Json.str "addAllowedPath"),
      ("arguments", Json.obj [("path", Json.str (os_path_abspath s.cwd root))])]) s).2.process =
      some ⟨p.stdinWritten ++ [requestLine (s.requestId + 1) "tools/call"
        (Json.obj [("name", Json.str "addAllowedPath"),
          ("arguments", Json.obj [("path", Json.str (os_path_abspath s.cwd root))])])],
        l2 :: ls⟩ := by
    rw [send_snd_process "tools/call" _ s p h, hp]
    rfl
  constructor
  · simp only [migration_readiness, haap]
    rw [send_snd_cwd "tools/call" _ s p h]
    rw [except_pair_snd]
    rw [send_snd_sent "tools/call" _ _ _ hp2]
    rw [send_snd_sent "tools/call" _ s p h, send_snd_requestId "tools/call" _ s p h]
    simp [List.append_assoc]
  · simp only [migration_readiness, haap]
    rw [send_snd_cwd "tools/call" _ s p h]
    rw [send_pair_ok "tools/call" _ _ _ l2 ls (Json.obj kvs2) hp2 rfl hl2 hload2]
    rfl

/-- C6: every named wrapper sends its fixed method name with exactly the
argument structure of the wrapper table — convert_to_graph includes a
tier member exactly when tier is provided, convert_auth fills authMethod
with "clientCredential" when the argument is unset, file/path wrappers
resolve their path to absolute form, and migration_readiness sends its
two table-conformant requests — and each wrapper returns exactly the
result portion of its parsed response (list_tools further projecting its
tools member; migration_readiness projecting the result portion of the
readiness response), so a remote-error response with no result member
yields an empty structure rather than a raised error or the error
object. -/
theorem wrappers_fixed_methods_and_result_projection
    (s : ClientState) (p : Proc) (code path sdkName authm root : String) (t : Int)
    (mf : Option Int) (h : s.process = some p) :
    (list_tools s).2.sent = s.sent ++ [mkRequest (s.requestId + 1) "tools/list" (Json.obj [])] ∧
    (analyze_code code s).2.sent = s.sent ++ [mkRequest (s.requestId + 1) "tools/call"
      (Json.obj [("name", Json.str "analyzeCode"), ("arguments",
        Json.obj [("sources", Json.arr [Json.obj [("code", Json.str code)]])])])] ∧
    (analyze_file path s).2.sent = s.sent ++ [mkRequest (s.requestId + 1) "tools/call"
      (Json.obj [("name", Json.str "analyzeFile"), ("arguments",
        Json.obj [("path", Json.str (os_path_abspath s.cwd path))])])] ∧
    (convert_to_graph code none s).2.sent = s.sent ++ [mkRequest (s.requestId + 1) "tools/call"
      (Json.obj [("name", Json.str "convertToGraph"), ("arguments",
        Json.obj [("code", Json.str code)])])] ∧
    (convert_to_graph code (some t) s).2.sent = s.sent ++ [mkRequest (s.requestId + 1) "tools/call"
      (Json.obj [("name", Json.str "convertToGraph"), ("arguments",
        Json.obj [("code", Json.str code), ("tier", Json.num t)])])] ∧
    (convert_auth code none s).2.sent = s.sent ++ [mkRequest (s.requestId + 1) "tools/call"
      (Json.obj [("name", Json.str "convertAuth"), ("arguments",
        Json.obj [("code", Json.str code), ("authMethod", Json.str "clientCredential")])])] ∧
    (convert_auth code (some authm) s).2.sent = s.sent ++ [mkRequest (s.requestId + 1) "tools/call"
      (Json.obj [("name", Json.str "convertAuth"), ("arguments",
        Json.obj [("code", Json.str code), ("authMethod", Json.str authm)])])] ∧
    (get_roadmap sdkName s).2.sent = s.sent ++ [mkRequest (s.requestId + 1) "tools/call"
      (Json.obj [("name", Json.str "getRoadmap"), ("arguments",
        Json.obj [("sdkQualifiedName", Json.str sdkName)])])] ∧
    (add_allowed_path path s).2.sent = s.sent ++ [mkRequest (s.requestId + 1) "tools/call"
      (Json.obj [("name", Json.str "addAllowedPath"), ("arguments",
        Json.obj [("path", Json.str (os_path_abspath s.cwd path))])])] ∧
    (∀ l ls kvs, p.stdoutPending = l :: ls → l ≠ "" →
      json_loads l = Except.ok (Json.obj kvs) →
      (analyze_code code s).1 = Except.ok ((lookupLast kvs "result").getD (Json.obj [])) ∧
      (analyze_file path s).1 = Except.ok ((lookupLast kvs "result").getD (Json.obj [])) ∧
      (convert_to_graph code none s).1 =
        Except.ok ((lookupLast kvs "result").getD (Json.obj [])) ∧
      (convert_to_graph code (some t) s).1 =
        Except.ok ((lookupLast kvs "result").getD (Json.obj [])) ∧
      (convert_auth code none s).1 =
        Except.ok ((lookupLast kvs "result").getD (Json.obj [])) ∧
      (convert_auth code (some authm) s).1 =
        Except.ok ((lookupLast kvs "result").getD (Json.obj [])) ∧
      (get_roadmap sdkName s).1 = Except.ok ((lookupLast kvs "result").getD (Json.obj [])) ∧
      (add_allowed_path path s).1 = Except.ok ((lookupLast kvs "result").getD (Json.obj [])) ∧
      (lookupLast kvs "result" = none → (analyze_code code s).1 = Except.ok (Json.obj [])) ∧
      (lookupLast kvs "result" = none → (list_tools s).1 = Except.ok (Json.arr [])) ∧
      (∀ kvs2, lookupLast kvs "result" = some (Json.obj kvs2) →
        (list_tools s).1 = Except.ok ((lookupLast kvs2 "tools").getD (Json.arr [])))) ∧
    (∀ l1 l2 ls kvs1 kvsB, p.stdoutPending = l1 :: l2 :: ls → l1 ≠ "" → l2 ≠ "" →
      json_loads l1 = Except.ok (Json.obj kvs1) → json_loads l2 = Except.ok (Json.obj kvsB) →
      (migration_readiness root mf s).2.sent = s.sent ++
        [mkRequest (s.requestId + 1) "tools/call"
          (Json.obj [("name", Json.str "addAllowedPath"),
            ("arguments", Json.obj [("path", Json.str (os_path_abspath s.cwd root))])]),
         mkRequest (s.requestId + 2) "tools/call"
          (Json.obj [("name", Json.str "getMigrationReadiness"),
            ("arguments", Json.obj [("rootPath", Json.str (os_path_abspath s.cwd root)),
              ("maxFiles", Json.num (mf.getD migration_readiness_default_max_files))])])] ∧
      (migration_readiness root mf s).1 =
        Except.ok ((lookupLast kvsB "result").getD (Json.obj []))) := by
  refine ⟨?_, ?_, ?_, ?_, ?_, ?_, ?_, ?_, ?_, ?_, ?_⟩
  · rw [list_tools_snd, send_snd_sent "tools/list" (Json.obj []) s p h]
  · rw [analyze_code_snd, send_snd_sent _ _ s p h]
  · rw [analyze_file_snd, send_snd_sent _ _ s p h]
  · rw [convert_to_graph_none_snd, send_snd_sent _ _ s p h]
  · rw [convert_to_graph_some_snd, send_snd_sent _ _ s p h]
  · rw [convert_auth_snd, send_snd_sent _ _ s p h]
    rfl
  · rw [convert_auth_snd, send_snd_sent _ _ s p h]
    rfl
  · rw [get_roadmap_snd, send_snd_sent _ _ s p h]
  · rw [add_allowed_path_snd, send_snd_sent _ _ s p h]
  · intro l ls kvs hp hl hload
    have hA : (analyze_code code s).1 =
        Except.ok ((lookupLast kvs "result").getD (Json.obj [])) := by
      simp only [analyze_code]
      rw [send_pair_ok "tools/call" _ s p l ls (Json.obj kvs) h hp hl hload]
      rfl
    have hF : (analyze_file path s).1 =
        Except.ok ((lookupLast kvs "result").getD (Json.obj [])) := by
      simp only [analyze_file]
      rw [send_pair_ok "tools/call" _ s p l ls (Json.obj kvs) h hp hl hload]
      rfl
    have hG : (convert_to_graph code none s).1 =
        Except.ok ((lookupLast kvs "result").getD (Json.obj [])) := by
      simp only [convert_to_graph]
      rw [send_pair_ok "tools/call" _ s p l ls (Json.obj kvs) h hp hl hload]
      rfl
    have hG2 : (convert_to_graph code (some t) s).1 =
        Except.ok ((lookupLast kvs "result").getD (Json.obj [])) := by
      simp only [convert_to_graph]
      rw [send_pair_ok "tools/call" _ s p l ls (Json.obj kvs) h hp hl hload]
      rfl
    have hCA0 : (convert_auth code none s).1 =
        Except.ok ((lookupLast kvs "result").getD (Json.obj [])) := by
      simp only [convert_auth]
      rw [send_pair_ok "tools/call" _ s p l ls (Json.obj kvs) h hp hl hload]
      rfl
    have hCA : (convert_auth code (some authm) s).1 =
        Except.ok ((lookupLast kvs "result").getD (Json.obj [])) := by
      simp only [convert_auth]
      rw [send_pair_ok "tools/call" _ s p l ls (Json.obj kvs) h hp hl hload]
      rfl
    have hR : (get_roadmap sdkName s).1 =
        Except.ok ((lookupLast kvs "result").getD (Json.obj [])) := by
      simp only [get_roadmap]
      rw [send_pair_ok "tools/call" _ s p l ls (Json.obj kvs) h hp hl hload]
      rfl
    have hAP : (add_allowed_path path s).1 =
        Except.ok ((lookupLast kvs "result").getD (Json.obj [])) := by
      simp only [add_allowed_path]
      rw [send_pair_ok "tools/call" _ s p l ls (Json.obj kvs) h hp hl hload]
      rfl
    refine ⟨hA, hF, hG, hG2, hCA0, hCA, hR, hAP, ?_, ?_, ?_⟩
    · intro hres
      rw [hA, hres]
      rfl
    · intro hres
      unfold list_tools
      rw [send_pair_ok "tools/list" _ s p l ls (Json.obj kvs) h hp hl hload]
      simp [dictGet, hres, lookupLast]
    · intro kvs2 hres
      unfold list_tools
      rw [send_pair_ok "tools/list" _ s p l ls (Json.obj kvs) h hp hl hload]
      simp [dictGet, hres]
  · intro l1 l2 ls kvs1 kvsB hp12 hl1 hl2 hload1 hload2
    exact migration_readiness_run s p root mf l1 l2 ls kvs1 kvsB h hp12 hl1 hl2 hload1 hload2

theorem wrappers_fixed_methods_and_result_projection_witness :
    ((⟨some ⟨[], []⟩, 0, [], 0, "/"⟩ : ClientState).process = some (⟨[], []⟩ : Proc)) ∧
    (analyze_code "x" ⟨some ⟨[], []⟩, 0, [], 0, "/"⟩).2.sent =
      [] ++ [mkRequest 1 "tools/call" (Json.obj [("name", Json.str "analyzeCode"),
        ("arguments", Json.obj [("sources", Json.arr [Json.obj [("code", Json.str "x")]])])])] :=
  ⟨rfl, (wrappers_fixed_methods_and_result_projection ⟨some ⟨[], []⟩, 0, [], 0, "/"⟩ ⟨[], []⟩
    "x" "p" "n" "a" "r" 2 none rfl).2.1⟩

/-- C7: for every root path, migration_readiness first issues the
add-allowed-path request for the same root path and only afterwards sends
the getMigrationReadiness request — the send log gains exactly those two
requests in that order, both carrying the root path resolved by
os.path.abspath — and the resolved path is absolute whenever the working
directory is. -/
theorem migration_readiness_orders_allowlist_first (s : ClientState) (p : Proc)
    (root : String) (mf : Option Int) (l : String) (ls : List String)
    (kvs : List (String × Json)) (h : s.process = some p) (hp : p.stdoutPending = l :: ls)
    (hl : l ≠ "") (hload : json_loads l = Except.ok (Json.obj kvs))
    (habs : isabs s.cwd = true) :
    (migration_readiness root mf s).2.sent = s.sent ++
      [mkRequest (s.requestId + 1) "tools/call"
        (Json.obj [("name", Json.str "addAllowedPath"),
          ("arguments", Json.obj [("path", Json.str (os_path_abspath s.cwd root))])]),
       mkRequest (s.requestId + 2) "tools/call"
        (Json.obj [("name", Json.str "getMigrationReadiness"),
          ("arguments", Json.obj [("rootPath", Json.str (os_path_abspath s.cwd root)),
            ("maxFiles", Json.num (mf.getD migration_readiness_default_max_files))])])] ∧
    isabs (os_path_abspath s.cwd root) = true := by
  refine ⟨?_, isabs_os_path_abspath s.cwd root habs⟩
  have haap : add_allowed_path root s =
      (Except.ok ((lookupLast kvs "result").getD (Json.obj [])),
        (_send "tools/call" (Json.obj [("name", Json.str "addAllowedPath"),
          ("arguments", Json.obj [("path", Json.str (os_path_abspath s.cwd root))])]) s).2) := by
    simp only [add_allowed_path]
    rw [send_pair_ok "tools/call" _ s p l ls (Json.obj kvs) h hp hl hload]
    rfl
  have hp2 := send_snd_process "tools/call" (Json.obj [("name", Json.str "addAllowedPath"),
    ("arguments", Json.obj [("path", Json.str (os_path_abspath s.cwd root))])]) s p h
  simp only [migration_readiness, haap]
  rw [send_snd_cwd "tools/call" _ s p h]
  rw [except_pair_snd]
  rw [send_snd_sent "tools/call" _ _ _ hp2]
  rw [send_snd_sent "tools/call" _ s p h, send_snd_requestId "tools/call" _ s p h]
  simp [List.append_assoc]

theorem migration_readiness_orders_allowlist_first_witness :
    ((⟨some ⟨[], ["\x7b\x7d", "\x7b\x7d"]⟩, 0, [], 0, "/base"⟩ : ClientState).process =
      some (⟨[], ["\x7b\x7d", "\x7b\x7d"]⟩ : Proc)) ∧
    isabs "/base" = true ∧
    isabs (os_path_abspath "/base" "proj") = true :=
  ⟨rfl, rfl, (migration_readiness_orders_allowlist_first
    ⟨some ⟨[], ["\x7b\x7d", "\x7b\x7d"]⟩, 0, [], 0, "/base"⟩ ⟨[], ["\x7b\x7d", "\x7b\x7d"]⟩
    "proj" none "\x7b\x7d" ["\x7b\x7d"] [] rfl rfl (by decide) rfl rfl).2⟩

/-- C8: if the child returns a non-JSON response line, call() fails with
the protocol-decode-failure kind after consuming exactly one line: the
process handle survives with the remaining stdout lines, and a subsequent
call() whose response line is well-formed succeeds on the same channel. -/
theorem decode_failure_keeps_channel_usable (m : String) (q : Json) (m2 : String) (q2 : Json)
    (s : ClientState) (p : Proc) (bad : String) (rest : List String)
    (h : s.process = some p) (hp : p.stdoutPending = bad :: rest) (hbad : bad ≠ "")
    (hparse : json_loads bad = Except.error ()) :
    (_send m q s).1 = Except.error PyErr.jsonDecodeError ∧
    (_send m q s).2.process =
      some ⟨p.stdinWritten ++ [requestLine (s.requestId + 1) m q], rest⟩ ∧
    (∀ good rest2 j, rest = good :: rest2 → good ≠ "" → json_loads good = Except.ok j →
      (_send m2 q2 (_send m q s).2).1 = Except.ok j) := by
  refine ⟨send_decode_fst m q s p bad rest h hp hbad hparse, ?_, ?_⟩
  · rw [send_snd_process m q s p h, hp]
    rfl
  · intro good rest2 j hrest hg hloadg
    have hproc : (_send m q s).2.process =
        some ⟨p.stdinWritten ++ [requestLine (s.requestId + 1) m q], good :: rest2⟩ := by
      rw [send_snd_process m q s p h, hp, hrest]
      rfl
    exact send_ok_fst m2 q2 (_send m q s).2
      ⟨p.stdinWritten ++ [requestLine (s.requestId + 1) m q], good :: rest2⟩
      good rest2 j hproc rfl hg hloadg

theorem decode_failure_keeps_channel_usable_witness :
    ((⟨some ⟨[], ["oops", "\x7b\x7d"]⟩, 0, [], 0, "/"⟩ : ClientState).process =
      some (⟨[], ["oops", "\x7b\x7d"]⟩ : Proc)) ∧
    json_loads "oops" = Except.error () ∧
    (_send "tools/list" (Json.obj [])
      ⟨some ⟨[], ["oops", "\x7b\x7d"]⟩, 0, [], 0, "/"⟩).1 =
      Except.error PyErr.jsonDecodeError :=
  ⟨rfl, rfl, (decode_failure_keeps_channel_usable "tools/list" (Json.obj [])
    "tools/list" (Json.obj []) ⟨some ⟨[], ["oops", "\x7b\x7d"]⟩, 0, [], 0, "/"⟩
    ⟨[], ["oops", "\x7b\x7d"]⟩ "oops" ["\x7b\x7d"] rfl rfl (by decide) rfl).1⟩

/-- C9: the configuration loader returns the parsed JSON content of the
primary (local) path when that file exists — reading only the primary
file, never the fallback — returns the fallback file's parsed content when
only the fallback exists, and returns the not-found signal None (raising
nothing) when neither exists. -/
theorem get_config_prefers_local (fs : String → Option String)
    (local_config_path default_config_path : String) :
    (∀ c j, fs local_config_path = some c → json_loads c = Except.ok j →
      get_config fs local_config_path default_config_path =
        (Except.ok (some j), [local_config_path])) ∧
    (∀ c j, fs local_config_path = none → fs default_config_path = some c →
      json_loads c = Except.ok j →
      get_config fs local_config_path default_config_path =
        (Except.ok (some j), [default_config_path])) ∧
    (fs local_config_path = none → fs default_config_path = none →
      get_config fs local_config_path default_config_path = (Except.ok none, [])) := by
  refine ⟨?_, ?_, ?_⟩
  · intro c j h1 h2
    unfold get_config
    simp [h1, h2]
  · intro c j h1 h2 h3
    unfold get_config
    simp [h1, h2, h3]
  · intro h1 h2
    unfold get_config
    simp [h1, h2]

theorem get_config_prefers_local_witness :
    ((fun q => if q = "a" then some "\x7b\x7d" else none) "a" = some "\x7b\x7d") ∧
    json_loads "\x7b\x7d" = Except.ok (Json.obj []) ∧
    get_config (fun q => if q = "a" then some "\x7b\x7d" else none) "a" "b" =
      (Except.ok (some (Json.obj [])), ["a"]) :=
  ⟨rfl, rfl, (get_config_prefers_local (fun q => if q = "a" then some "\x7b\x7d" else none)
    "a" "b").1 "\x7b\x7d" (Json.obj []) rfl rfl⟩

/-- C10 (counterexample): the claim says start() never fails because of
the shape of the initialize response and substitutes "?" whenever result,
serverInfo or name is missing.  But for the valid JSON handshake response
line "42" — a parsed response that lacks a result field — start() raises
an AttributeError, because response.get is called on a non-dict. -/
theorem start_raises_on_non_object_handshake :
    json_loads "42" = Except.ok (Json.num 42) ∧
    (start ["42"] (initClient "/")).1 =
      Except.error (PyErr.attributeError "object has no attribute get") :=
  ⟨rfl, rfl⟩

/-- C10 (amended): start() substitutes the placeholder "?" and completes
normally for every parsed handshake response that is a JSON object whose
result member (after defaulting to an empty object) is an object, whose
serverInfo member (after defaulting) is an object, and which lacks a name
member; a non-object at any of these levels instead raises an
AttributeError from the .get chain. -/
theorem start_defaults_server_name (s : ClientState) (line : String) (rest : List String)
    (kvs kvs2 kvs3 : List (String × Json)) (hline : line ≠ "")
    (hload : json_loads line = Except.ok (Json.obj kvs))
    (h1 : (lookupLast kvs "result").getD (Json.obj []) = Json.obj kvs2)
    (h2 : (lookupLast kvs2 "serverInfo").getD (Json.obj []) = Json.obj kvs3)
    (h3 : lookupLast kvs3 "name" = none) :
    (start (line :: rest) s).1 = Except.ok (Json.str "?") := by
  simp only [start]
  rw [send_pair_ok "initialize" (Json.obj []) { s with process := some ⟨[], line :: rest⟩ }
    ⟨[], line :: rest⟩ line rest (Json.obj kvs) rfl rfl hline hload]
  simp [dictGet, h1, h2, h3]

theorem start_defaults_server_name_witness :
    ("\x7b\x7d" ≠ "") ∧ json_loads "\x7b\x7d" = Except.ok (Json.obj []) ∧
    (start ["\x7b\x7d"] (initClient "/")).1 = Except.ok (Json.str "?") :=
  ⟨by decide, rfl, start_defaults_server_name (initClient "/") "\x7b\x7d" [] [] [] []
    (by decide) rfl rfl rfl rfl⟩
